import Mathlib

/-!
# Wallverine scene engine: shallow embedding and verification

This file embeds the scene composition and transition engine of the
wallverine repository (`src/SceneManager.ts`) in Lean 4 and settles the
specification claims against it.

Modelling choices:
* a `Scene` (the Renderable of the spec) is identified by its `name`; its
  `animate`/`onEnter`/`onExit` callbacks are external side effects, so the
  interaction of the engine with them is recorded as events in a trace;
* the mutable `SceneManager` object becomes an explicit state record `SM`
  threaded through the operations;
* every operation returns the new state together with the list of events it
  emits, in the program order of the TypeScript source.  Events cover
  lifecycle-hook invocations, the private field assignments of the engine (needed for
  the bookkeeping-order claim), and the canvas-context operations
  (`globalAlpha` writes, `globalCompositeOperation` writes, the persistence
  `fillRect`, and per-scene `animate` calls);
* JavaScript numbers are modelled as `ℚ` where fractional values occur
  (progress, easing, alpha) and as `ℕ` for the millisecond accumulator
  `transitionProgress` (the code only ever adds the integer 16 to it).
-/

namespace Wallverine

/-- A Renderable: a named unit of visual content.  Its draw procedure and
optional lifecycle hooks live outside the engine; the engine only holds the
reference and invokes them, which the trace records. -/
structure Scene where
  name : String
deriving DecidableEq

/-- A layered composition: up to three optional scenes, one per slot
(`LayeredScene` in `SceneManager.ts`). -/
structure LayeredScene where
  background : Option Scene := none
  middle : Option Scene := none
  foreground : Option Scene := none
deriving DecidableEq

/-- The three layer slots accepted by `updateLayer`. -/
inductive Layer
  | background
  | middle
  | foreground
deriving DecidableEq

/-- Events emitted by the engine, in program order.

`hookExit s` / `hookEnter s` record the engine invoking `s.onExit?.()` /
`s.onEnter?.()`.  The `w…` constructors record assignments to the private
fields of the engine.  `setAlpha` / `setComposite` / `persistFill` /
`animate` record operations on the shared canvas context (`persistFill` is
the `rgba(0, 0, 0, 0.03)` full-canvas `fillRect`). -/
inductive Ev
  | hookExit (s : Scene)
  | hookEnter (s : Scene)
  | wCurrent (s : Option Scene)
  | wLayered (l : Option LayeredScene)
  | wMode (b : Bool)
  | wNext (s : Option Scene)
  | wTransitioning (b : Bool)
  | wProgress (n : ℕ)
  | setAlpha (q : ℚ)
  | setComposite (mode : String)
  | persistFill
  | animate (s : Scene) (time : ℚ)
deriving DecidableEq

/-- The `SceneManager` private fields (`SceneManager.ts`, lines 16-22). -/
structure SM where
  currentScene : Option Scene := none
  layeredScene : Option LayeredScene := none
  isLayeredMode : Bool := false
  transitionProgress : ℕ := 0
  isTransitioning : Bool := false
  nextScene : Option Scene := none
deriving DecidableEq

/-- The freshly constructed manager: all fields at their initializers. -/
def SM.init : SM := {}

/-- Constant `transitionDuration = 1000` milliseconds. -/
def transitionDuration : ℕ := 1000

/-- Trace of `scene?.onExit?.()` for an optional scene reference. -/
def exitEvs : Option Scene → List Ev
  | some s => [Ev.hookExit s]
  | none => []

/-- Trace of `scene?.onEnter?.()` for an optional scene reference. -/
def enterEvs : Option Scene → List Ev
  | some s => [Ev.hookEnter s]
  | none => []

/-- Method `startTransition(nextScene)` (`SceneManager.ts`, lines 88-92). -/
def startTransition (sm : SM) (next : Scene) : SM × List Ev :=
  ({ sm with nextScene := some next, isTransitioning := true, transitionProgress := 0 },
   [Ev.wNext (some next), Ev.wTransitioning true, Ev.wProgress 0])

/-- Method `setScene(scene, withTransition = true)` (`SceneManager.ts`, lines 26-37).
Unconditionally leaves layered mode and drops the composition, then either
starts a transition (when requested and a current scene exists) or swaps
immediately with synchronous exit/enter. -/
def setScene (sm : SM) (scene : Scene) (withTransition : Bool := true) : SM × List Ev :=
  let sm1 : SM := { sm with isLayeredMode := false, layeredScene := none }
  let evs1 : List Ev := [Ev.wMode false, Ev.wLayered none]
  if withTransition && sm1.currentScene.isSome then
    let p := startTransition sm1 scene
    (p.1, evs1 ++ p.2)
  else
    ({ sm1 with currentScene := some scene },
     evs1 ++ exitEvs sm1.currentScene ++ [Ev.wCurrent (some scene), Ev.hookEnter scene])

/-- Method `setLayeredScene(layered)` (`SceneManager.ts`, lines 40-57). -/
def setLayeredScene (sm : SM) (layered : LayeredScene) : SM × List Ev :=
  let sm1 : SM := { sm with isLayeredMode := true, currentScene := none }
  let evs1 : List Ev := [Ev.wMode true, Ev.wCurrent none]
  let exits : List Ev :=
    match sm1.layeredScene with
    | some ls => exitEvs ls.background ++ exitEvs ls.middle ++ exitEvs ls.foreground
    | none => []
  ({ sm1 with layeredScene := some layered },
   evs1 ++ exits ++ [Ev.wLayered (some layered)] ++
     enterEvs layered.background ++ enterEvs layered.middle ++ enterEvs layered.foreground)

/-- Slot lookup, `this.layeredScene[layer]`. -/
def getSlot (ls : LayeredScene) : Layer → Option Scene
  | Layer.background => ls.background
  | Layer.middle => ls.middle
  | Layer.foreground => ls.foreground

/-- Slot assignment/removal, `this.layeredScene[layer] = scene` and
`delete this.layeredScene[layer]`. -/
def setSlot (ls : LayeredScene) : Layer → Option Scene → LayeredScene
  | Layer.background, s => { ls with background := s }
  | Layer.middle, s => { ls with middle := s }
  | Layer.foreground, s => { ls with foreground := s }

/-- Method `updateLayer(layer, scene)` (`SceneManager.ts`, lines 60-86).  Switches
to layered mode with an empty composition when not already layered, exits
any previous occupant of the slot, then installs the new scene (entering
it) or removes the slot when passed `null`. -/
def updateLayer (sm : SM) (layer : Layer) (scene : Option Scene) : SM × List Ev :=
  let p1 : SM × List Ev :=
    if !sm.isLayeredMode then
      ({ sm with layeredScene := some {}, isLayeredMode := true, currentScene := none },
       [Ev.wLayered (some {}), Ev.wMode true, Ev.wCurrent none])
    else (sm, [])
  match p1.1.layeredScene with
  | none => p1
  | some ls =>
    let exits : List Ev := exitEvs (getSlot ls layer)
    match scene with
    | none =>
      let ls2 := setSlot ls layer none
      ({ p1.1 with layeredScene := some ls2 },
       p1.2 ++ exits ++ [Ev.wLayered (some ls2)])
    | some s =>
      let ls2 := setSlot ls layer (some s)
      ({ p1.1 with layeredScene := some ls2 },
       p1.2 ++ exits ++ [Ev.wLayered (some ls2), Ev.hookEnter s])

/-- Method `renderLayeredScene(time)` (`SceneManager.ts`, lines 128-165): the
mandatory persistence fill, then each occupied layer with its fixed
alpha/composite configuration, then the trailing context reset. -/
def renderLayeredScene (ols : Option LayeredScene) (time : ℚ) : List Ev :=
  match ols with
  | none => []
  | some ls =>
    [Ev.persistFill] ++
    (match ls.background with
     | some b => [Ev.setAlpha (6/10), Ev.setComposite ("source-over"), Ev.animate b time]
     | none => []) ++
    (match ls.middle with
     | some m => [Ev.setComposite ("lighter"), Ev.setAlpha (8/10), Ev.animate m time]
     | none => []) ++
    (match ls.foreground with
     | some f => [Ev.setComposite ("source-over"), Ev.setAlpha 1, Ev.animate f time]
     | none => []) ++
    [Ev.setComposite ("source-over"), Ev.setAlpha 1]

/-- The dispatch part of `update` (`SceneManager.ts`, lines 115-121): the
layered path when in layered mode with a composition, otherwise the single
scene `animate` call when present, otherwise nothing. -/
def renderPhase (sm : SM) (time : ℚ) : List Ev :=
  if sm.isLayeredMode && sm.layeredScene.isSome then
    renderLayeredScene sm.layeredScene time
  else
    match sm.currentScene with
    | some c => [Ev.animate c time]
    | none => []

/-- Method `update(time)` (`SceneManager.ts`, lines 94-126).  When transitioning,
adds the fixed 16 ms per call, computes linear and eased progress, and
either completes the swap (exit old, swap current for pending, enter new,
clear pending, stop transitioning) or applies the fade alpha; then renders;
then resets alpha when still transitioning. -/
def update (sm : SM) (time : ℚ) : SM × List Ev :=
  let p1 : SM × List Ev :=
    if sm.isTransitioning then
      let tp : ℕ := sm.transitionProgress + 16
      let progress : ℚ := min ((tp : ℚ) / (transitionDuration : ℚ)) 1
      if 1 ≤ progress then
        ({ sm with transitionProgress := tp, currentScene := sm.nextScene,
                   nextScene := none, isTransitioning := false },
         [Ev.wProgress tp] ++ exitEvs sm.currentScene ++
           [Ev.wCurrent sm.nextScene] ++ enterEvs sm.nextScene ++
           [Ev.wNext none, Ev.wTransitioning false])
      else
        let easeProgress : ℚ := 1 - (1 - progress) ^ 3
        ({ sm with transitionProgress := tp },
         [Ev.wProgress tp, Ev.setAlpha (1 - easeProgress)])
    else (sm, [])
  let evs2 := renderPhase p1.1 time
  let evs3 : List Ev := if p1.1.isTransitioning then [Ev.setAlpha 1] else []
  (p1.1, p1.2 ++ evs2 ++ evs3)

/-- Method `getCurrentSceneName()` (`SceneManager.ts`, lines 167-176).  In layered
mode with a composition: the occupied-slot labels joined by `" | "`.
Otherwise `this.currentScene?.name || none-label` — the JavaScript `||`
falls back to the label `none` both when there is no current scene and
when its name is the empty string. -/
def getCurrentSceneName (sm : SM) : String :=
  if sm.isLayeredMode && sm.layeredScene.isSome then
    match sm.layeredScene with
    | some ls =>
      String.intercalate (" | ")
        ((match ls.background with | some b => ["bg:" ++ b.name] | none => []) ++
         (match ls.middle with | some m => ["mid:" ++ m.name] | none => []) ++
         (match ls.foreground with | some f => ["fg:" ++ f.name] | none => []))
    | none => "none"
  else
    match sm.currentScene with
    | some c => if c.name = "" then "none" else c.name
    | none => "none"

/-- Method `isInLayeredMode()` (`SceneManager.ts`, lines 178-180). -/
def isInLayeredMode (sm : SM) : Bool :=
  sm.isLayeredMode

/-- The public operations a driver can invoke, for reachability statements. -/
inductive Act
  | actSetScene (s : Scene) (withTransition : Bool)
  | actSetLayeredScene (ls : LayeredScene)
  | actUpdateLayer (l : Layer) (s : Option Scene)
  | actUpdate (time : ℚ)

/-- Apply one public operation. -/
def applyAct (sm : SM) : Act → SM × List Ev
  | Act.actSetScene s w => setScene sm s w
  | Act.actSetLayeredScene ls => setLayeredScene sm ls
  | Act.actUpdateLayer l s => updateLayer sm l s
  | Act.actUpdate t => update sm t

/-- Run a sequence of public operations from a state, concatenating the
emitted traces. -/
def runActs : SM → List Act → SM × List Ev
  | sm, [] => (sm, [])
  | sm, a :: rest =>
    let p := applyAct sm a
    let q := runActs p.1 rest
    (q.1, p.2 ++ q.2)

/-- Run a sequence of `update` calls with the given frame timestamps. -/
def iterUpdate : SM → List ℚ → SM × List Ev
  | sm, [] => (sm, [])
  | sm, t :: rest =>
    let p := update sm t
    let q := iterUpdate p.1 rest
    (q.1, p.2 ++ q.2)

/-- Is an event a lifecycle-hook invocation? -/
def isHook : Ev → Bool
  | Ev.hookExit _ => true
  | Ev.hookEnter _ => true
  | _ => false

/-- Is an event an assignment to one of the private engine fields? -/
def isWrite : Ev → Bool
  | Ev.wCurrent _ => true
  | Ev.wLayered _ => true
  | Ev.wMode _ => true
  | Ev.wNext _ => true
  | Ev.wTransitioning _ => true
  | Ev.wProgress _ => true
  | _ => false

/-- The lifecycle-hook events of a trace, in order. -/
def hookEvs (l : List Ev) : List Ev :=
  l.filter isHook

/-- Does some hook invocation happen strictly before some bookkeeping
write in the trace?  (The spec demands this never happens within one
operation.) -/
def hookThenWrite : List Ev → Bool
  | [] => false
  | e :: rest => (isHook e && rest.any isWrite) || hookThenWrite rest

/-- The canonical mid-transition state: single mode, current scene `a`,
pending scene `b`, accumulated progress `p`.  This is exactly the state
produced by `setScene b true` from a single-mode state showing `a`,
followed by in-between updates. -/
def transState (a b : Scene) (p : ℕ) : SM :=
  { currentScene := some a, layeredScene := none, isLayeredMode := false,
    transitionProgress := p, isTransitioning := true, nextScene := some b }

/-- A driver run interleaving a transition with a switch to layered mode:
show scene `A`, start a transition to `B`, adopt a layered composition
(background `X`) mid-flight, then 63 frames. -/
def c3acts : List Act :=
  [Act.actSetScene ⟨"A"⟩ false, Act.actSetScene ⟨"B"⟩ true,
   Act.actSetLayeredScene ⟨some ⟨"X"⟩, none, none⟩] ++
  (List.replicate 63 (0 : ℚ)).map Act.actUpdate

/-- A driver run interleaving a transition with a layer-slot edit: show
scene `A`, start a transition to `B`, set the background layer to `X`
mid-flight, then 63 frames. -/
def c4acts : List Act :=
  [Act.actSetScene ⟨"A"⟩ false, Act.actSetScene ⟨"B"⟩ true,
   Act.actUpdateLayer Layer.background (some ⟨"X"⟩)] ++
  (List.replicate 63 (0 : ℚ)).map Act.actUpdate

/-! ## Helper lemmas about the transition step -/

lemma one_le_progress_iff (tp : ℕ) :
    (1 : ℚ) ≤ min ((tp : ℚ) / (transitionDuration : ℚ)) 1 ↔ 1000 ≤ tp := by
  rw [transitionDuration, le_min_iff]
  have hd : ((1000 : ℕ) : ℚ) = (1000 : ℚ) := by norm_num
  rw [hd, le_div_iff₀ (by norm_num : (0 : ℚ) < 1000), one_mul]
  constructor
  · rintro ⟨h, -⟩
    exact_mod_cast h
  · intro h
    exact ⟨by exact_mod_cast h, le_refl 1⟩

lemma hookEvs_renderLayered (ols : Option LayeredScene) (t : ℚ) :
    hookEvs (renderLayeredScene ols t) = [] := by
  cases ols with
  | none => rfl
  | some ls =>
    rcases ls with ⟨bg, mid, fg⟩
    cases bg <;> cases mid <;> cases fg <;> rfl

lemma hookEvs_renderPhase (sm : SM) (t : ℚ) :
    hookEvs (renderPhase sm t) = [] := by
  rw [renderPhase]
  split
  · exact hookEvs_renderLayered _ _
  · cases h : sm.currentScene <;> rfl

lemma hookEvs_append (l1 l2 : List Ev) :
    hookEvs (l1 ++ l2) = hookEvs l1 ++ hookEvs l2 := by
  simp [hookEvs]

lemma hookEvs_exitEvs (o : Option Scene) : hookEvs (exitEvs o) = exitEvs o := by
  cases o <;> rfl

lemma hookEvs_enterEvs (o : Option Scene) : hookEvs (enterEvs o) = enterEvs o := by
  cases o <;> rfl

/-- An `update` call with no transition in flight: the state is untouched
and only render events are emitted. -/
lemma update_steady (sm : SM) (t : ℚ) (h : sm.isTransitioning = false) :
    update sm t = (sm, renderPhase sm t) := by
  simp [update, h]

/-- An `update` call mid-transition that does not yet reach the duration:
only the accumulator advances, and the emitted fade alpha is
`(1 − progress)³`. -/
lemma update_in_between (sm : SM) (t : ℚ) (htr : sm.isTransitioning = true)
    (h : sm.transitionProgress + 16 < 1000) :
    update sm t =
      ({ sm with transitionProgress := sm.transitionProgress + 16 },
       [Ev.wProgress (sm.transitionProgress + 16),
        Ev.setAlpha ((1 - ((sm.transitionProgress + 16 : ℕ) : ℚ) / (transitionDuration : ℚ)) ^ 3)]
         ++ renderPhase { sm with transitionProgress := sm.transitionProgress + 16 } t
         ++ [Ev.setAlpha 1]) := by
  have hcond : ¬ ((1 : ℚ) ≤ min (((sm.transitionProgress + 16 : ℕ) : ℚ) / (transitionDuration : ℚ)) 1) := by
    rw [one_le_progress_iff]; omega
  have hle : ((sm.transitionProgress + 16 : ℕ) : ℚ) / (transitionDuration : ℚ) ≤ 1 := by
    rw [transitionDuration, div_le_one (by norm_num : (0 : ℚ) < ((1000 : ℕ) : ℚ))]
    exact_mod_cast Nat.le_of_lt h
  have halpha : (1 : ℚ) -
      (1 - (1 - ((sm.transitionProgress + 16 : ℕ) : ℚ) / (transitionDuration : ℚ)) ^ 3) =
      (1 - ((sm.transitionProgress + 16 : ℕ) : ℚ) / (transitionDuration : ℚ)) ^ 3 := by
    ring
  simp only [update, htr, if_true, ite_true]
  rw [if_neg hcond, min_eq_left hle, halpha]
  simp

/-- An `update` call mid-transition whose 16 ms increment reaches the
duration: the swap completes with exit-then-enter hooks and the transition
bookkeeping is cleared (after the hooks fire). -/
lemma update_completing (sm : SM) (t : ℚ) (htr : sm.isTransitioning = true)
    (h : 1000 ≤ sm.transitionProgress + 16) :
    update sm t =
      ({ sm with transitionProgress := sm.transitionProgress + 16,
                 currentScene := sm.nextScene, nextScene := none, isTransitioning := false },
       [Ev.wProgress (sm.transitionProgress + 16)] ++ exitEvs sm.currentScene ++
         [Ev.wCurrent sm.nextScene] ++ enterEvs sm.nextScene ++
         [Ev.wNext none, Ev.wTransitioning false] ++
         renderPhase { sm with transitionProgress := sm.transitionProgress + 16,
                               currentScene := sm.nextScene, nextScene := none,
                               isTransitioning := false } t) := by
  have hcond : (1 : ℚ) ≤ min (((sm.transitionProgress + 16 : ℕ) : ℚ) / (transitionDuration : ℚ)) 1 :=
    (one_le_progress_iff _).mpr h
  simp only [update, htr, if_true, ite_true]
  rw [if_pos hcond]
  simp

/-! ## Iterated update runs -/

lemma iterUpdate_cons (sm : SM) (t : ℚ) (ts : List ℚ) :
    iterUpdate sm (t :: ts) =
      ((iterUpdate (update sm t).1 ts).1,
       (update sm t).2 ++ (iterUpdate (update sm t).1 ts).2) := rfl

/-- With no transition in flight, any number of `update` calls leaves the
state untouched and fires no hook. -/
lemma iterUpdate_steady (sm : SM) (ts : List ℚ) (h : sm.isTransitioning = false) :
    (iterUpdate sm ts).1 = sm ∧ hookEvs (iterUpdate sm ts).2 = [] := by
  induction ts with
  | nil => exact ⟨rfl, rfl⟩
  | cons t ts ih =>
    rw [iterUpdate_cons, update_steady sm t h]
    exact ⟨ih.1, by rw [hookEvs_append, hookEvs_renderPhase, ih.2]; rfl⟩

/-- Mid-transition, a run of updates too short to reach the duration only
advances the accumulator (16 ms per call) and fires no hook. -/
lemma iterUpdate_in_between (ts : List ℚ) (k : ℕ) (sm : SM)
    (htr : sm.isTransitioning = true) (hp : sm.transitionProgress = 16 * k)
    (hlen : k + ts.length ≤ 62) :
    (iterUpdate sm ts).1 = { sm with transitionProgress := 16 * (k + ts.length) } ∧
      hookEvs (iterUpdate sm ts).2 = [] := by
  induction ts generalizing sm k with
  | nil =>
    refine ⟨?_, rfl⟩
    simp only [List.length_nil]
    rw [Nat.add_zero, ← hp]
    rfl
  | cons t ts ih =>
    simp only [List.length_cons] at hlen ⊢
    have h16 : sm.transitionProgress + 16 < 1000 := by omega
    rw [iterUpdate_cons, update_in_between sm t htr h16]
    have hp' : ({ sm with transitionProgress := sm.transitionProgress + 16 } : SM).transitionProgress
        = 16 * (k + 1) := by
      simp only []
      omega
    obtain ⟨ih1, ih2⟩ := ih (k + 1) { sm with transitionProgress := sm.transitionProgress + 16 }
      htr hp' (by omega)
    constructor
    · rw [show 16 * (k + (ts.length + 1)) = 16 * ((k + 1) + ts.length) by ring]
      exact ih1
    · rw [hookEvs_append, ih2, List.append_nil, hookEvs_append, hookEvs_append,
        hookEvs_renderPhase]
      rfl

/-- Mid-transition with accumulated progress `16·k` (`k ≤ 62`), any run of
at least `63 − k` further updates completes the swap: the final state has
the pending scene installed and the transition cleared, and the hooks fired
across the whole run are exactly exit-of-current then enter-of-pending. -/
lemma iterUpdate_full (ts : List ℚ) (k : ℕ) (sm : SM)
    (htr : sm.isTransitioning = true) (hp : sm.transitionProgress = 16 * k)
    (hk : k ≤ 62) (hlen : 63 - k ≤ ts.length) :
    (iterUpdate sm ts).1 =
      { sm with transitionProgress := 1008, currentScene := sm.nextScene,
                nextScene := none, isTransitioning := false } ∧
      hookEvs (iterUpdate sm ts).2 = exitEvs sm.currentScene ++ enterEvs sm.nextScene := by
  induction ts generalizing sm k with
  | nil => simp only [List.length_nil] at hlen; omega
  | cons t ts ih =>
    simp only [List.length_cons] at hlen
    by_cases hk62 : k = 62
    · subst hk62
      have hreach : 1000 ≤ sm.transitionProgress + 16 := by omega
      rw [iterUpdate_cons, update_completing sm t htr hreach]
      have hdone : ({ sm with transitionProgress := sm.transitionProgress + 16,
                              currentScene := sm.nextScene, nextScene := none,
                              isTransitioning := false } : SM).isTransitioning = false := rfl
      obtain ⟨hs1, hs2⟩ := iterUpdate_steady _ ts hdone
      constructor
      · rw [hs1]
        have : sm.transitionProgress + 16 = 1008 := by omega
        rw [this]
      · rw [hookEvs_append, hs2, List.append_nil, hookEvs_append, hookEvs_append,
          hookEvs_append, hookEvs_append, hookEvs_append, hookEvs_exitEvs,
          hookEvs_enterEvs, hookEvs_renderPhase]
        simp [hookEvs, List.filter, isHook]
    · have hklt : k ≤ 61 := by omega
      have h16 : sm.transitionProgress + 16 < 1000 := by omega
      rw [iterUpdate_cons, update_in_between sm t htr h16]
      have hp' : ({ sm with transitionProgress := sm.transitionProgress + 16 } : SM).transitionProgress
          = 16 * (k + 1) := by
        simp only []
        omega
      obtain ⟨ih1, ih2⟩ := ih (k + 1) { sm with transitionProgress := sm.transitionProgress + 16 }
        htr hp' (by omega) (by omega)
      constructor
      · exact ih1
      · rw [hookEvs_append, ih2, hookEvs_append, hookEvs_append, hookEvs_renderPhase]
        rfl

/-- Running the mapped `update` actions is running the updates. -/
lemma runActs_updates (sm : SM) (ts : List ℚ) :
    runActs sm (ts.map Act.actUpdate) = iterUpdate sm ts := by
  induction ts generalizing sm with
  | nil => rfl
  | cons t ts ih => simp [runActs, applyAct, iterUpdate_cons, ih]

lemma runActs_append (sm : SM) (l1 l2 : List Act) :
    runActs sm (l1 ++ l2) =
      ((runActs (runActs sm l1).1 l2).1,
       (runActs sm l1).2 ++ (runActs (runActs sm l1).1 l2).2) := by
  induction l1 generalizing sm with
  | nil => rfl
  | cons a l1 ih => simp [runActs, ih]

/-! ## Unfoldings of the setters -/

/-- Calling `setScene` with a transition requested and a current scene present
starts the transition. -/
lemma setScene_trans (sm : SM) (b : Scene) (h : sm.currentScene.isSome = true) :
    setScene sm b true =
      ({ sm with isLayeredMode := false, layeredScene := none,
                 nextScene := some b, isTransitioning := true, transitionProgress := 0 },
       [Ev.wMode false, Ev.wLayered none, Ev.wNext (some b), Ev.wTransitioning true,
        Ev.wProgress 0]) := by
  simp [setScene, startTransition, h]

/-- Calling `setScene` without a transition swaps synchronously. -/
lemma setScene_now (sm : SM) (s : Scene) :
    setScene sm s false =
      ({ sm with isLayeredMode := false, layeredScene := none, currentScene := some s },
       [Ev.wMode false, Ev.wLayered none] ++ exitEvs sm.currentScene ++
         [Ev.wCurrent (some s), Ev.hookEnter s]) := by
  simp [setScene]

/-- Calling `setScene` with no current scene swaps synchronously whatever the
`withTransition` flag says. -/
lemma setScene_nocur (sm : SM) (s : Scene) (w : Bool) (h : sm.currentScene = none) :
    setScene sm s w =
      ({ sm with isLayeredMode := false, layeredScene := none, currentScene := some s },
       [Ev.wMode false, Ev.wLayered none, Ev.wCurrent (some s), Ev.hookEnter s]) := by
  simp [setScene, h, exitEvs]

/-! ## Claim theorems -/

/-- C5: for every transition started with a current Renderable `a` toward a
pending Renderable `b` that is left undisturbed, running enough `update`
calls for the accumulated elapsed time of the engine (16 ms per call) to
reach `totalDuration` fires the `onExit` of `a` exactly once and the
`onEnter` of `b`
exactly once, in exit-then-enter order, and no further exit/enter hooks
fire on later `update` calls: the hook events of the whole run are exactly
`[hookExit a, hookEnter b]`, and `b` ends up current. -/
theorem c5_transition_hooks_exact (sm : SM) (a b : Scene) (ts : List ℚ)
    (hcur : sm.currentScene = some a)
    (helapsed : transitionDuration ≤ 16 * ts.length) :
    (iterUpdate (setScene sm b true).1 ts).1.currentScene = some b ∧
      hookEvs (iterUpdate (setScene sm b true).1 ts).2 = [Ev.hookExit a, Ev.hookEnter b] := by
  rw [setScene_trans sm b (by rw [hcur]; rfl)]
  have hlen : 63 - 0 ≤ ts.length := by
    rw [transitionDuration] at helapsed; omega
  obtain ⟨h1, h2⟩ := iterUpdate_full ts 0
    { sm with isLayeredMode := false, layeredScene := none,
              nextScene := some b, isTransitioning := true, transitionProgress := 0 }
    rfl rfl (by omega) hlen
  constructor
  · rw [h1]
  · rw [h2]
    simp [hcur, exitEvs, enterEvs]

/-- Witness for C5 at a concrete run: scene `A` current, transition to `B`,
63 zero-timestamp frames. -/
theorem c5_transition_hooks_exact_witness :
    ((setScene SM.init ⟨"A"⟩ false).1.currentScene = some ⟨"A"⟩ ∧
      transitionDuration ≤ 16 * (List.replicate 63 (0 : ℚ)).length) ∧
    ((iterUpdate (setScene (setScene SM.init ⟨"A"⟩ false).1 ⟨"B"⟩ true).1
        (List.replicate 63 (0 : ℚ))).1.currentScene = some ⟨"B"⟩ ∧
      hookEvs (iterUpdate (setScene (setScene SM.init ⟨"A"⟩ false).1 ⟨"B"⟩ true).1
        (List.replicate 63 (0 : ℚ))).2 = [Ev.hookExit ⟨"A"⟩, Ev.hookEnter ⟨"B"⟩]) :=
  ⟨⟨rfl, by rw [List.length_replicate, transitionDuration]; omega⟩,
   c5_transition_hooks_exact (setScene SM.init ⟨"A"⟩ false).1 ⟨"A"⟩ ⟨"B"⟩
     (List.replicate 63 (0 : ℚ)) rfl
     (by rw [List.length_replicate, transitionDuration]; omega)⟩

/-- C1 (counterexample): completion is NOT governed by accumulated
wall-clock delta time.  Starting a transition at timestamp 0 and calling
`update` at timestamps 600 and 1200 — 1200 ms of wall-clock time, past the
1000 ms `totalDuration` — leaves the transition still in flight with no
hook fired: the engine added its fixed 16 ms per call (32 ms total),
ignoring the timestamps. -/
theorem c1_counterexample :
    (iterUpdate (setScene (setScene SM.init ⟨"A"⟩ false).1 ⟨"B"⟩ true).1
        [600, 1200]).1.isTransitioning = true ∧
      hookEvs (iterUpdate (setScene (setScene SM.init ⟨"A"⟩ false).1 ⟨"B"⟩ true).1
        [600, 1200]).2 = [] := by
  have h0 : (setScene (setScene SM.init ⟨"A"⟩ false).1 ⟨"B"⟩ true).1
      = transState ⟨"A"⟩ ⟨"B"⟩ 0 := rfl
  rw [h0]
  obtain ⟨h1, h2⟩ := iterUpdate_in_between [600, 1200] 0 (transState ⟨"A"⟩ ⟨"B"⟩ 0)
    rfl rfl (by simp)
  exact ⟨by rw [h1]; rfl, h2⟩

/-- C1 (amended): completion depends only on the NUMBER of `update` calls,
not on the frame timestamps: the engine adds a fixed 16 ms per call, so any
62 calls leave the transition in flight with no hook fired, and any 63 or
more calls complete it (firing exit-then-enter), whatever the timestamps
are. -/
theorem c1_frame_count_completion (sm : SM) (a b : Scene) (ts62 ts63 : List ℚ)
    (hcur : sm.currentScene = some a)
    (h62 : ts62.length ≤ 62) (h63 : 63 ≤ ts63.length) :
    ((iterUpdate (setScene sm b true).1 ts62).1.isTransitioning = true ∧
      hookEvs (iterUpdate (setScene sm b true).1 ts62).2 = []) ∧
    ((iterUpdate (setScene sm b true).1 ts63).1.isTransitioning = false ∧
      (iterUpdate (setScene sm b true).1 ts63).1.currentScene = some b ∧
      hookEvs (iterUpdate (setScene sm b true).1 ts63).2
        = [Ev.hookExit a, Ev.hookEnter b]) := by
  rw [setScene_trans sm b (by rw [hcur]; rfl)]
  constructor
  · obtain ⟨h1, h2⟩ := iterUpdate_in_between ts62 0
      { sm with isLayeredMode := false, layeredScene := none,
                nextScene := some b, isTransitioning := true, transitionProgress := 0 }
      rfl rfl (by omega)
    exact ⟨by rw [h1], h2⟩
  · obtain ⟨h1, h2⟩ := iterUpdate_full ts63 0
      { sm with isLayeredMode := false, layeredScene := none,
                nextScene := some b, isTransitioning := true, transitionProgress := 0 }
      rfl rfl (by omega) (by omega)
    refine ⟨by rw [h1], by rw [h1], ?_⟩
    rw [h2]
    simp [hcur, exitEvs, enterEvs]

/-- Witness for the amended C1 at a concrete run: 62 frames at huge
timestamps do not complete; 63 frames at zero timestamps do. -/
theorem c1_frame_count_completion_witness :
    ((setScene SM.init ⟨"A"⟩ false).1.currentScene = some ⟨"A"⟩ ∧
      (List.replicate 62 (1000000 : ℚ)).length ≤ 62 ∧
      63 ≤ (List.replicate 63 (0 : ℚ)).length) ∧
    (((iterUpdate (setScene (setScene SM.init ⟨"A"⟩ false).1 ⟨"B"⟩ true).1
        (List.replicate 62 (1000000 : ℚ))).1.isTransitioning = true ∧
      hookEvs (iterUpdate (setScene (setScene SM.init ⟨"A"⟩ false).1 ⟨"B"⟩ true).1
        (List.replicate 62 (1000000 : ℚ))).2 = []) ∧
    ((iterUpdate (setScene (setScene SM.init ⟨"A"⟩ false).1 ⟨"B"⟩ true).1
        (List.replicate 63 (0 : ℚ))).1.isTransitioning = false ∧
      (iterUpdate (setScene (setScene SM.init ⟨"A"⟩ false).1 ⟨"B"⟩ true).1
        (List.replicate 63 (0 : ℚ))).1.currentScene = some ⟨"B"⟩ ∧
      hookEvs (iterUpdate (setScene (setScene SM.init ⟨"A"⟩ false).1 ⟨"B"⟩ true).1
        (List.replicate 63 (0 : ℚ))).2 = [Ev.hookExit ⟨"A"⟩, Ev.hookEnter ⟨"B"⟩])) :=
  ⟨⟨rfl, by rw [List.length_replicate], by rw [List.length_replicate]⟩,
   c1_frame_count_completion (setScene SM.init ⟨"A"⟩ false).1 ⟨"A"⟩ ⟨"B"⟩
     (List.replicate 62 (1000000 : ℚ)) (List.replicate 63 (0 : ℚ)) rfl
     (by rw [List.length_replicate]) (by rw [List.length_replicate])⟩

/-- C10: calling `setScene(s, withTransition = false)` with a transition in
flight toward pending `b` swaps `s` in immediately (exit of the old
current, then enter of `s`), does NOT cancel the transition (the state keeps
`isTransitioning = true` and pending `b` — it equals `transState s b`
at the same accumulated progress), and once enough updates follow, the
completion fires `onExit` on `s`, installs the stale pending `b` as
current, and fires the `onEnter` of `b`. -/
theorem c10_stale_pending_overwrite (a b s : Scene) (k : ℕ) (ts : List ℚ)
    (hk : k ≤ 62) (hlen : 63 - k ≤ ts.length) :
    (setScene (transState a b (16 * k)) s false).2 =
      [Ev.wMode false, Ev.wLayered none, Ev.hookExit a, Ev.wCurrent (some s),
       Ev.hookEnter s] ∧
    (setScene (transState a b (16 * k)) s false).1 = transState s b (16 * k) ∧
    (iterUpdate (transState s b (16 * k)) ts).1.currentScene = some b ∧
    (iterUpdate (transState s b (16 * k)) ts).1.isTransitioning = false ∧
    hookEvs (iterUpdate (transState s b (16 * k)) ts).2
      = [Ev.hookExit s, Ev.hookEnter b] := by
  obtain ⟨h1, h2⟩ := iterUpdate_full ts k (transState s b (16 * k)) rfl rfl hk hlen
  refine ⟨by rw [setScene_now]; rfl, by rw [setScene_now]; rfl, by rw [h1]; rfl,
    by rw [h1], ?_⟩
  rw [h2]
  rfl

/-- Witness for C10 at a concrete run: transition from `A` to `B` freshly
started, `setScene S false`, then 63 frames. -/
theorem c10_stale_pending_overwrite_witness :
    ((0 : ℕ) ≤ 62 ∧ 63 - 0 ≤ (List.replicate 63 (0 : ℚ)).length) ∧
    ((setScene (transState ⟨"A"⟩ ⟨"B"⟩ (16 * 0)) ⟨"S"⟩ false).2 =
      [Ev.wMode false, Ev.wLayered none, Ev.hookExit ⟨"A"⟩, Ev.wCurrent (some ⟨"S"⟩),
       Ev.hookEnter ⟨"S"⟩] ∧
    (setScene (transState ⟨"A"⟩ ⟨"B"⟩ (16 * 0)) ⟨"S"⟩ false).1
      = transState ⟨"S"⟩ ⟨"B"⟩ (16 * 0) ∧
    (iterUpdate (transState ⟨"S"⟩ ⟨"B"⟩ (16 * 0)) (List.replicate 63 (0 : ℚ))).1.currentScene
      = some ⟨"B"⟩ ∧
    (iterUpdate (transState ⟨"S"⟩ ⟨"B"⟩ (16 * 0)) (List.replicate 63 (0 : ℚ))).1.isTransitioning
      = false ∧
    hookEvs (iterUpdate (transState ⟨"S"⟩ ⟨"B"⟩ (16 * 0)) (List.replicate 63 (0 : ℚ))).2
      = [Ev.hookExit ⟨"S"⟩, Ev.hookEnter ⟨"B"⟩]) :=
  ⟨⟨by omega, by rw [List.length_replicate]⟩,
   c10_stale_pending_overwrite ⟨"A"⟩ ⟨"B"⟩ ⟨"S"⟩ 0 (List.replicate 63 (0 : ℚ))
     (by omega) (by rw [List.length_replicate])⟩

/-! ## Mode bookkeeping across the operations -/

lemma setScene_layered_none (sm : SM) (s : Scene) (w : Bool) :
    (setScene sm s w).1.layeredScene = none := by
  rw [setScene]
  split <;> rfl

lemma setLayeredScene_mode (sm : SM) (ls : LayeredScene) :
    (setLayeredScene sm ls).1.isLayeredMode = true := rfl

lemma updateLayer_mode (sm : SM) (l : Layer) (s : Option Scene) :
    (updateLayer sm l s).1.isLayeredMode = true := by
  rw [updateLayer]
  by_cases hm : sm.isLayeredMode
  · simp only [hm, Bool.not_true, Bool.false_eq_true, if_false]
    cases hl : sm.layeredScene with
    | none => exact hm
    | some ls => cases s <;> rfl
  · simp only [Bool.not_eq_true] at hm
    simp only [hm, Bool.not_false, if_true]
    cases s <;> rfl

lemma update_mode (sm : SM) (t : ℚ) :
    (update sm t).1.isLayeredMode = sm.isLayeredMode := by
  simp only [update]
  split
  · split <;> rfl
  · rfl

lemma update_layered (sm : SM) (t : ℚ) :
    (update sm t).1.layeredScene = sm.layeredScene := by
  simp only [update]
  split
  · split <;> rfl
  · rfl

/-- Each public operation preserves the single-mode half of the mode
invariant. -/
lemma applyAct_single_inv (a : Act) (sm : SM)
    (h : sm.isLayeredMode = false → sm.layeredScene = none) :
    (applyAct sm a).1.isLayeredMode = false → (applyAct sm a).1.layeredScene = none := by
  cases a with
  | actSetScene s w =>
    intro _
    exact setScene_layered_none sm s w
  | actSetLayeredScene ls =>
    intro h'
    rw [show (applyAct sm (Act.actSetLayeredScene ls)).1 = (setLayeredScene sm ls).1 from rfl,
      setLayeredScene_mode] at h'
    cases h'
  | actUpdateLayer l s =>
    intro h'
    rw [show (applyAct sm (Act.actUpdateLayer l s)).1 = (updateLayer sm l s).1 from rfl,
      updateLayer_mode] at h'
    cases h'
  | actUpdate t =>
    intro h'
    rw [show (applyAct sm (Act.actUpdate t)).1 = (update sm t).1 from rfl, update_mode] at h'
    rw [show (applyAct sm (Act.actUpdate t)).1 = (update sm t).1 from rfl, update_layered]
    exact h h'

lemma runActs_single_inv (acts : List Act) (sm : SM)
    (h : sm.isLayeredMode = false → sm.layeredScene = none) :
    (runActs sm acts).1.isLayeredMode = false → (runActs sm acts).1.layeredScene = none := by
  induction acts generalizing sm with
  | nil => exact h
  | cons a rest ih =>
    show (runActs (applyAct sm a).1 rest).1.isLayeredMode = false →
      (runActs (applyAct sm a).1 rest).1.layeredScene = none
    exact ih (applyAct sm a).1 (applyAct_single_inv a sm h)

/-- C3 (counterexample): the Layered half of the mode invariant fails.  In
the reachable state after `c3acts` — adopt a layered composition while a
transition to `B` is in flight, then run 63 frames — the engine is in
layered mode AND `currentScene` is `some B`: the transition completion
installed the pending scene while layered. -/
theorem c3_counterexample :
    (runActs SM.init c3acts).1.isLayeredMode = true ∧
      (runActs SM.init c3acts).1.currentScene = some ⟨"B"⟩ := by
  rw [c3acts, runActs_append]
  have hpre : (runActs SM.init [Act.actSetScene ⟨"A"⟩ false, Act.actSetScene ⟨"B"⟩ true,
      Act.actSetLayeredScene ⟨some ⟨"X"⟩, none, none⟩]).1 =
      { currentScene := none, layeredScene := some ⟨some ⟨"X"⟩, none, none⟩,
        isLayeredMode := true, transitionProgress := 0, isTransitioning := true,
        nextScene := some ⟨"B"⟩ } := rfl
  rw [hpre, runActs_updates]
  obtain ⟨h1, -⟩ := iterUpdate_full (List.replicate 63 (0 : ℚ)) 0
    { currentScene := none, layeredScene := some ⟨some ⟨"X"⟩, none, none⟩,
      isLayeredMode := true, transitionProgress := 0, isTransitioning := true,
      nextScene := some ⟨"B"⟩ } rfl rfl (by omega) (by simp)
  rw [h1]
  exact ⟨rfl, rfl⟩

/-- C3 (amended): only the Single half of the invariant holds: whenever a
reachable state has `isLayeredMode = false`, its layered composition is
`null`.  (The Layered half — layered mode implies `currentScene` is null —
is refuted by the counterexample.) -/
theorem c3_single_mode_invariant (acts : List Act)
    (h : (runActs SM.init acts).1.isLayeredMode = false) :
    (runActs SM.init acts).1.layeredScene = none :=
  runActs_single_inv acts SM.init (fun _ => rfl) h

/-- Witness for the amended C3 at the empty action list. -/
theorem c3_single_mode_invariant_witness :
    (runActs SM.init []).1.isLayeredMode = false ∧
      (runActs SM.init []).1.layeredScene = none :=
  ⟨rfl, c3_single_mode_invariant [] rfl⟩

/-- C4 (counterexample): after `c4acts` — a layer-slot edit while a
transition to `B` is in flight, then 63 frames — the `onEnter` of the
pending scene `B` DOES fire: the layered switch does not abandon the
in-flight transition. -/
theorem c4_counterexample :
    Ev.hookEnter ⟨"B"⟩ ∈ (runActs SM.init c4acts).2 := by
  rw [c4acts, runActs_append]
  have hpre : (runActs SM.init [Act.actSetScene ⟨"A"⟩ false, Act.actSetScene ⟨"B"⟩ true,
      Act.actUpdateLayer Layer.background (some ⟨"X"⟩)]).1 =
      { currentScene := none, layeredScene := some ⟨some ⟨"X"⟩, none, none⟩,
        isLayeredMode := true, transitionProgress := 0, isTransitioning := true,
        nextScene := some ⟨"B"⟩ } := rfl
  rw [hpre, runActs_updates]
  obtain ⟨-, h2⟩ := iterUpdate_full (List.replicate 63 (0 : ℚ)) 0
    { currentScene := none, layeredScene := some ⟨some ⟨"X"⟩, none, none⟩,
      isLayeredMode := true, transitionProgress := 0, isTransitioning := true,
      nextScene := some ⟨"B"⟩ } rfl rfl (by omega) (by simp)
  refine List.mem_append_right _ (List.mem_of_mem_filter (p := isHook) ?_)
  show Ev.hookEnter ⟨"B"⟩ ∈ hookEvs _
  rw [h2]
  simp [exitEvs, enterEvs]

/-- C4 (amended): `setLayeredScene` and `updateLayer` do NOT abandon an
in-flight transition: the transitioning flag and the pending reference
survive the switch to layered mode, and once enough frames elapse the
the `onEnter` of the pending scene fires (installing it as `currentScene` while
layered). -/
theorem c4_transition_survives (a b s : Scene) (ls : LayeredScene) (l : Layer)
    (k : ℕ) (ts : List ℚ) (hk : k ≤ 62) (hlen : 63 - k ≤ ts.length) :
    ((setLayeredScene (transState a b (16 * k)) ls).1.isTransitioning = true ∧
     (setLayeredScene (transState a b (16 * k)) ls).1.nextScene = some b ∧
     Ev.hookEnter b ∈ (iterUpdate (setLayeredScene (transState a b (16 * k)) ls).1 ts).2) ∧
    ((updateLayer (transState a b (16 * k)) l (some s)).1.isTransitioning = true ∧
     (updateLayer (transState a b (16 * k)) l (some s)).1.nextScene = some b ∧
     Ev.hookEnter b ∈ (iterUpdate (updateLayer (transState a b (16 * k)) l (some s)).1 ts).2) := by
  have hσ1 : (setLayeredScene (transState a b (16 * k)) ls).1 =
      { currentScene := none, layeredScene := some ls, isLayeredMode := true,
        transitionProgress := 16 * k, isTransitioning := true, nextScene := some b } := rfl
  have hσ2 : (updateLayer (transState a b (16 * k)) l (some s)).1 =
      { currentScene := none, layeredScene := some (setSlot {} l (some s)),
        isLayeredMode := true, transitionProgress := 16 * k, isTransitioning := true,
        nextScene := some b } := by
    cases l <;> rfl
  constructor
  · refine ⟨by rw [hσ1], by rw [hσ1], ?_⟩
    rw [hσ1]
    obtain ⟨-, h2⟩ := iterUpdate_full ts k
      { currentScene := none, layeredScene := some ls, isLayeredMode := true,
        transitionProgress := 16 * k, isTransitioning := true, nextScene := some b }
      rfl rfl hk hlen
    refine List.mem_of_mem_filter (p := isHook) ?_
    show Ev.hookEnter b ∈ hookEvs _
    rw [h2]
    simp [exitEvs, enterEvs]
  · refine ⟨by rw [hσ2], by rw [hσ2], ?_⟩
    rw [hσ2]
    obtain ⟨-, h2⟩ := iterUpdate_full ts k
      { currentScene := none, layeredScene := some (setSlot {} l (some s)),
        isLayeredMode := true, transitionProgress := 16 * k, isTransitioning := true,
        nextScene := some b }
      rfl rfl hk hlen
    refine List.mem_of_mem_filter (p := isHook) ?_
    show Ev.hookEnter b ∈ hookEvs _
    rw [h2]
    simp [exitEvs, enterEvs]

/-- Witness for the amended C4 at a concrete interleaving. -/
theorem c4_transition_survives_witness :
    ((0 : ℕ) ≤ 62 ∧ 63 - 0 ≤ (List.replicate 63 (0 : ℚ)).length) ∧
    (((setLayeredScene (transState ⟨"A"⟩ ⟨"B"⟩ (16 * 0)) {}).1.isTransitioning = true ∧
     (setLayeredScene (transState ⟨"A"⟩ ⟨"B"⟩ (16 * 0)) {}).1.nextScene = some ⟨"B"⟩ ∧
     Ev.hookEnter ⟨"B"⟩ ∈ (iterUpdate (setLayeredScene (transState ⟨"A"⟩ ⟨"B"⟩ (16 * 0)) {}).1
        (List.replicate 63 (0 : ℚ))).2) ∧
    ((updateLayer (transState ⟨"A"⟩ ⟨"B"⟩ (16 * 0)) Layer.background (some ⟨"X"⟩)).1.isTransitioning
        = true ∧
     (updateLayer (transState ⟨"A"⟩ ⟨"B"⟩ (16 * 0)) Layer.background (some ⟨"X"⟩)).1.nextScene
        = some ⟨"B"⟩ ∧
     Ev.hookEnter ⟨"B"⟩ ∈ (iterUpdate
        (updateLayer (transState ⟨"A"⟩ ⟨"B"⟩ (16 * 0)) Layer.background (some ⟨"X"⟩)).1
        (List.replicate 63 (0 : ℚ))).2)) :=
  ⟨⟨by omega, by rw [List.length_replicate]⟩,
   c4_transition_survives ⟨"A"⟩ ⟨"B"⟩ ⟨"X"⟩ {} Layer.background 0
     (List.replicate 63 (0 : ℚ)) (by omega) (by rw [List.length_replicate])⟩

/-- C2 (counterexample): with the background layer occupied by `A`,
switching to a single scene via `setScene` does NOT fire the `onExit` of `A`:
the composition is silently discarded. -/
theorem c2_counterexample :
    (setLayeredScene SM.init ⟨some ⟨"A"⟩, none, none⟩).1.layeredScene
      = some ⟨some ⟨"A"⟩, none, none⟩ ∧
    Ev.hookExit ⟨"A"⟩ ∉
      (setScene (setLayeredScene SM.init ⟨some ⟨"A"⟩, none, none⟩).1 ⟨"S"⟩ false).2 := by
  refine ⟨rfl, ?_⟩
  rw [setScene_nocur _ _ _ rfl]
  simp

/-- C2 (amended): switching away from a layered composition with `setScene`
fires NO `onExit` on any occupied layer.  Since `currentScene` is null in
(normally reached) layered states, the call performs an immediate swap
whose only hook is the `onEnter` of the new Renderable, whatever the
`withTransition` flag says — the layered occupants are dropped silently. -/
theorem c2_setScene_no_layer_exits (sm : SM) (s : Scene) (w : Bool)
    (hcur : sm.currentScene = none) :
    (setScene sm s w).2 =
      [Ev.wMode false, Ev.wLayered none, Ev.wCurrent (some s), Ev.hookEnter s] ∧
    (setScene sm s w).1 =
      { sm with isLayeredMode := false, layeredScene := none, currentScene := some s } := by
  rw [setScene_nocur sm s w hcur]
  exact ⟨rfl, rfl⟩

/-- Witness for the amended C2: a layered state with all three slots
occupied, switched to single scene `S`. -/
theorem c2_setScene_no_layer_exits_witness :
    (setLayeredScene SM.init ⟨some ⟨"A"⟩, some ⟨"M"⟩, some ⟨"F"⟩⟩).1.currentScene = none ∧
    ((setScene (setLayeredScene SM.init ⟨some ⟨"A"⟩, some ⟨"M"⟩, some ⟨"F"⟩⟩).1 ⟨"S"⟩ true).2 =
      [Ev.wMode false, Ev.wLayered none, Ev.wCurrent (some ⟨"S"⟩), Ev.hookEnter ⟨"S"⟩] ∧
     (setScene (setLayeredScene SM.init ⟨some ⟨"A"⟩, some ⟨"M"⟩, some ⟨"F"⟩⟩).1 ⟨"S"⟩ true).1 =
      { (setLayeredScene SM.init ⟨some ⟨"A"⟩, some ⟨"M"⟩, some ⟨"F"⟩⟩).1 with
          isLayeredMode := false, layeredScene := none, currentScene := some ⟨"S"⟩ }) :=
  ⟨rfl, c2_setScene_no_layer_exits
    (setLayeredScene SM.init ⟨some ⟨"A"⟩, some ⟨"M"⟩, some ⟨"F"⟩⟩).1 ⟨"S"⟩ true rfl⟩

/-- C6 (counterexample): on the first in-between frame of a transition the
linear progress is `p = 16/1000 = 2/125`, and the global draw opacity the
engine applies is `(1 − p)³` — NOT the claimed `1 − (1 − p)³` (which is the
eased progress, not the opacity), and the two differ at this input. -/
theorem c6_counterexample :
    Ev.setAlpha ((1 - (2/125 : ℚ)) ^ 3) ∈ (update (transState ⟨"A"⟩ ⟨"B"⟩ 0) 0).2 ∧
    Ev.setAlpha (1 - (1 - (2/125 : ℚ)) ^ 3) ∉ (update (transState ⟨"A"⟩ ⟨"B"⟩ 0) 0).2 := by
  have h16 : (transState ⟨"A"⟩ ⟨"B"⟩ 0).transitionProgress + 16 < 1000 := by
    show (0 : ℕ) + 16 < 1000
    omega
  rw [update_in_between _ 0 rfl h16]
  have hv : ((1 : ℚ) -
      (((transState ⟨"A"⟩ ⟨"B"⟩ 0).transitionProgress + 16 : ℕ) : ℚ) /
        (transitionDuration : ℚ)) ^ 3 = (1 - (2/125 : ℚ)) ^ 3 := by
    have htp : (transState ⟨"A"⟩ ⟨"B"⟩ 0).transitionProgress = 0 := rfl
    rw [htp, transitionDuration]
    norm_num
  rw [hv]
  have hrender : renderPhase
      { transState ⟨"A"⟩ ⟨"B"⟩ 0 with
          transitionProgress := (transState ⟨"A"⟩ ⟨"B"⟩ 0).transitionProgress + 16 } 0
      = [Ev.animate ⟨"A"⟩ 0] := rfl
  rw [hrender]
  constructor
  · simp
  · have hne1 : (1 : ℚ) - (1 - (2/125 : ℚ)) ^ 3 ≠ (1 - (2/125 : ℚ)) ^ 3 := by norm_num
    have hne2 : (1 : ℚ) - (1 - (2/125 : ℚ)) ^ 3 ≠ 1 := by norm_num
    simp [hne1, hne2]

/-- C6 (amended): mid-transition, the in-between frame after accumulated
progress `16·k` (`k ≤ 61`) applies the global opacity `(1 − p)³` to the
outgoing Renderable, where `p = 16·(k+1)/1000` is the linear progress — the
code computes it as `1 − eased` with `eased = 1 − (1 − p)³` — and this fade
opacity is strictly decreasing as `p` increases on `(0, 1)`. -/
theorem c6_fade_alpha (sm : SM) (t : ℚ) (k : ℕ)
    (htr : sm.isTransitioning = true) (hp : sm.transitionProgress = 16 * k)
    (hk : k ≤ 61) :
    Ev.setAlpha ((1 - ((16 * (k + 1) : ℕ) : ℚ) / (transitionDuration : ℚ)) ^ 3)
      ∈ (update sm t).2 ∧
    ∀ p1 p2 : ℚ, 0 < p1 → p1 < p2 → p2 < 1 → (1 - p2) ^ 3 < (1 - p1) ^ 3 := by
  constructor
  · have h16 : sm.transitionProgress + 16 < 1000 := by omega
    rw [update_in_between sm t htr h16]
    have hq : sm.transitionProgress + 16 = 16 * (k + 1) := by omega
    rw [hq]
    simp
  · intro p1 p2 hp1 hlt hp2
    have h1 : (0 : ℚ) ≤ 1 - p2 := by linarith
    have h2 : 1 - p2 < 1 - p1 := by linarith
    have h3 : (3 : ℕ) ≠ 0 := by norm_num
    exact pow_lt_pow_left₀ h2 h1 h3

/-- Witness for the amended C6 on the first frame of a fresh transition. -/
theorem c6_fade_alpha_witness :
    ((transState ⟨"A"⟩ ⟨"B"⟩ 0).isTransitioning = true ∧
      (transState ⟨"A"⟩ ⟨"B"⟩ 0).transitionProgress = 16 * 0 ∧ (0 : ℕ) ≤ 61) ∧
    (Ev.setAlpha ((1 - ((16 * (0 + 1) : ℕ) : ℚ) / (transitionDuration : ℚ)) ^ 3)
      ∈ (update (transState ⟨"A"⟩ ⟨"B"⟩ 0) 0).2 ∧
    ∀ p1 p2 : ℚ, 0 < p1 → p1 < p2 → p2 < 1 → (1 - p2) ^ 3 < (1 - p1) ^ 3) :=
  ⟨⟨rfl, rfl, by omega⟩, c6_fade_alpha (transState ⟨"A"⟩ ⟨"B"⟩ 0) 0 0 rfl rfl (by omega)⟩

/-- C7 (counterexample): the reachable layered state with an empty
composition (obtained by removing a never-assigned background slot from the
initial state) has no active content, yet `getCurrentSceneName` returns the
empty string, not `"none"`. -/
theorem c7_counterexample :
    ((updateLayer SM.init Layer.background none).1.currentScene = none ∧
     (updateLayer SM.init Layer.background none).1.layeredScene = some ⟨none, none, none⟩) ∧
    getCurrentSceneName (updateLayer SM.init Layer.background none).1 ≠ "none" := by
  refine ⟨⟨rfl, rfl⟩, ?_⟩
  intro h
  have h2 : getCurrentSceneName (updateLayer SM.init Layer.background none).1 = "" := rfl
  rw [h2] at h
  simp at h

/-- C7 (amended): function `getCurrentSceneName` returns the name of the single scene in
single mode when one is set and its name is non-empty (JavaScript `||`
makes an empty name fall back to `"none"` too); returns `"none"` in single
mode with no current scene; on the example of the spec — background `A`, then
foreground `B` via the slot setter — returns `"bg:A | fg:B"`; and in
layered mode with an EMPTY composition returns `""`, not `"none"`. -/
theorem c7_description :
    (∀ sm : SM, ∀ c : Scene, sm.isLayeredMode = false → sm.currentScene = some c →
      c.name ≠ "" → getCurrentSceneName sm = c.name) ∧
    (∀ sm : SM, sm.isLayeredMode = false → sm.currentScene = none →
      getCurrentSceneName sm = "none") ∧
    getCurrentSceneName
      (updateLayer (setLayeredScene SM.init ⟨some ⟨"A"⟩, none, none⟩).1
        Layer.foreground (some ⟨"B"⟩)).1 = "bg:A | fg:B" ∧
    (∀ sm : SM, sm.isLayeredMode = true → sm.layeredScene = some ⟨none, none, none⟩ →
      getCurrentSceneName sm = "") := by
  refine ⟨?_, ?_, ?_, ?_⟩
  · intro sm c hm hc hname
    rw [getCurrentSceneName, hm]
    simp [hc, hname]
  · intro sm hm hc
    rw [getCurrentSceneName, hm]
    simp [hc]
  · rfl
  · intro sm hm hl
    rw [getCurrentSceneName, hm, hl]
    rfl

/-- Witness for the amended C7 in single mode with a current scene. -/
theorem c7_description_witness :
    ((setScene SM.init ⟨"A"⟩ false).1.isLayeredMode = false ∧
      (setScene SM.init ⟨"A"⟩ false).1.currentScene = some ⟨"A"⟩ ∧
      (⟨"A"⟩ : Scene).name ≠ "") ∧
    getCurrentSceneName (setScene SM.init ⟨"A"⟩ false).1 = (⟨"A"⟩ : Scene).name :=
  ⟨⟨rfl, rfl, by decide⟩,
   c7_description.1 (setScene SM.init ⟨"A"⟩ false).1 ⟨"A"⟩ rfl rfl (by decide)⟩

/-- C8 (counterexample): in the initial state — single mode, nothing active
— `update` does NOT perform the persistence fill: it draws nothing at all
(the fill only happens on the layered render path). -/
theorem c8_counterexample :
    (SM.init.currentScene = none ∧ SM.init.layeredScene = none) ∧
    Ev.persistFill ∉ (update SM.init 0).2 ∧
    (update SM.init 0).2 = [] := by
  have h : (update SM.init 0).2 = [] := by
    rw [update_steady SM.init 0 rfl]
    rfl
  exact ⟨⟨rfl, rfl⟩, by rw [h]; simp, h⟩

/-- C8 (amended): with no transition in flight and no current scene,
`update` never fails (it is total), leaves the state unchanged, and fires
no hook; what it does to the surface depends on the mode: in single mode
(or with no composition) it draws NOTHING — no persistence fill; in
layered mode with an empty composition it performs exactly the persistence
fill followed by the trailing blend/alpha reset. -/
theorem c8_empty_update (sm : SM) (t : ℚ)
    (htr : sm.isTransitioning = false) (hcur : sm.currentScene = none) :
    (update sm t).1 = sm ∧
    hookEvs (update sm t).2 = [] ∧
    (sm.isLayeredMode = false ∨ sm.layeredScene = none → (update sm t).2 = []) ∧
    (sm.isLayeredMode = true → sm.layeredScene = some ⟨none, none, none⟩ →
      (update sm t).2 = [Ev.persistFill, Ev.setComposite ("source-over"), Ev.setAlpha 1]) := by
  rw [update_steady sm t htr]
  refine ⟨rfl, hookEvs_renderPhase sm t, ?_, ?_⟩
  · intro hor
    show renderPhase sm t = []
    rw [renderPhase]
    rcases hor with hm | hl
    · rw [hm]
      simp [hcur]
    · rw [hl]
      simp [hcur]
  · intro hm hl
    show renderPhase sm t = _
    rw [renderPhase, hm, hl]
    rfl

/-- Witness for the amended C8 at the empty layered composition. -/
theorem c8_empty_update_witness :
    ((updateLayer SM.init Layer.background none).1.isTransitioning = false ∧
      (updateLayer SM.init Layer.background none).1.currentScene = none) ∧
    ((update (updateLayer SM.init Layer.background none).1 0).1
        = (updateLayer SM.init Layer.background none).1 ∧
    hookEvs (update (updateLayer SM.init Layer.background none).1 0).2 = [] ∧
    ((updateLayer SM.init Layer.background none).1.isLayeredMode = false ∨
        (updateLayer SM.init Layer.background none).1.layeredScene = none →
      (update (updateLayer SM.init Layer.background none).1 0).2 = []) ∧
    ((updateLayer SM.init Layer.background none).1.isLayeredMode = true →
      (updateLayer SM.init Layer.background none).1.layeredScene = some ⟨none, none, none⟩ →
      (update (updateLayer SM.init Layer.background none).1 0).2
        = [Ev.persistFill, Ev.setComposite ("source-over"), Ev.setAlpha 1])) :=
  ⟨⟨rfl, rfl⟩, c8_empty_update (updateLayer SM.init Layer.background none).1 0 rfl rfl⟩

/-- C9 (counterexample): a lifecycle hook fires BEFORE a bookkeeping write
in both hook-firing operations: in the immediate swap of `setScene` the
`onExit` of the old scene precedes the `currentScene` assignment, and in the
transition-completing `update` the `onEnter` precedes clearing
`nextScene`/`isTransitioning` — so a throwing hook leaves the engine
mid-operation, contradicting the claim. -/
theorem c9_counterexample :
    hookThenWrite (setScene (transState ⟨"A"⟩ ⟨"B"⟩ 992) ⟨"S"⟩ false).2 = true ∧
    hookThenWrite (update (transState ⟨"A"⟩ ⟨"B"⟩ 992) 0).2 = true := by
  constructor
  · rw [setScene_now]
    rfl
  · have h992 : (1000 : ℕ) ≤ 992 + 16 := by omega
    rw [update_completing (transState ⟨"A"⟩ ⟨"B"⟩ 992) 0 rfl h992]
    rfl

/-- C9 (amended): the engine interleaves bookkeeping and hooks in program
order rather than finishing its writes first: the immediate swap fires
`onExit` before writing `currentScene`, then `onEnter`; the completing
`update` fires `onExit` before the `currentScene` write and `onEnter`
before clearing `nextScene` and `isTransitioning` — so a throwing `onEnter`
at completion leaves `isTransitioning = true` with the pending reference
still set. -/
theorem c9_hook_order (sm : SM) (a b s : Scene) (t : ℚ)
    (hcur : sm.currentScene = some a) :
    (setScene sm s false).2 =
      [Ev.wMode false, Ev.wLayered none, Ev.hookExit a, Ev.wCurrent (some s),
       Ev.hookEnter s] ∧
    (update (transState a b 992) t).2 =
      [Ev.wProgress 1008, Ev.hookExit a, Ev.wCurrent (some b), Ev.hookEnter b,
       Ev.wNext none, Ev.wTransitioning false, Ev.animate b t] := by
  constructor
  · rw [setScene_now]
    show [Ev.wMode false, Ev.wLayered none] ++ exitEvs sm.currentScene ++ _ = _
    rw [hcur]
    rfl
  · have h992 : (1000 : ℕ) ≤ 992 + 16 := by omega
    rw [update_completing (transState a b 992) t rfl h992]
    rfl

/-- Witness for the amended C9 at concrete scenes. -/
theorem c9_hook_order_witness :
    (transState ⟨"A"⟩ ⟨"B"⟩ 0).currentScene = some ⟨"A"⟩ ∧
    ((setScene (transState ⟨"A"⟩ ⟨"B"⟩ 0) ⟨"S"⟩ false).2 =
      [Ev.wMode false, Ev.wLayered none, Ev.hookExit ⟨"A"⟩, Ev.wCurrent (some ⟨"S"⟩),
       Ev.hookEnter ⟨"S"⟩] ∧
    (update (transState ⟨"A"⟩ ⟨"B"⟩ 992) 7).2 =
      [Ev.wProgress 1008, Ev.hookExit ⟨"A"⟩, Ev.wCurrent (some ⟨"B"⟩), Ev.hookEnter ⟨"B"⟩,
       Ev.wNext none, Ev.wTransitioning false, Ev.animate ⟨"B"⟩ 7]) :=
  ⟨rfl, c9_hook_order (transState ⟨"A"⟩ ⟨"B"⟩ 0) ⟨"A"⟩ ⟨"B"⟩ ⟨"S"⟩ 7 rfl⟩

end Wallverine

